import Mathlib

/-!
Shallow embedding of aiorwlock (src/aiorwlock/__init__.py), the asyncio
reader-writer lock.  The mutable state of the class _RWLockCore is embedded
as the structure RWLockCore; each atomic segment of the async methods
(the code executed between two suspension points) is embedded as a pure
function on that state.  Futures created by acquire_read / acquire_write
are embedded as Fut values carrying the identity of the waiting task and a
status (pending / fulfilled by set_result / cancelled); fut.done() is true
exactly when the status is not pending, matching asyncio.Future.done.

Task cancellation of a waiter parked at "await fut" follows the asyncio
runtime semantics the code relies on: Task.cancel first cancels the future
if the future is still pending (so a pending future becomes done-cancelled,
and wake_up skips it), while an already fulfilled future keeps its result;
in both cases CancelledError is then raised at the await, running the
except branch (decrement the count, re-run _wake_up) and the finally
branch (remove the future from the waiter queue).
-/

namespace Aiorwlock

/-- Status of an asyncio.Future created for a queued waiter: pending,
fulfilled by set_result(None), or cancelled.  fut.done() is true in the
last two cases. -/
inductive FutState
  | pending
  | fulfilled
  | cancelled
deriving DecidableEq

/-- A future in one of the waiter queues: its identity (Python futures
compare by object identity), the task that awaits it, and its status. -/
structure Fut where
  id : Nat
  task : Nat
  st : FutState
deriving DecidableEq

/-- fut.done(): the future is fulfilled or cancelled. -/
def Fut.done : Fut → Bool
  | ⟨_, _, FutState.pending⟩ => false
  | _ => true

/-- _RWLockCore._RL = 1. -/
def RL : Nat := 1

/-- _RWLockCore._WL = 2. -/
def WL : Nat := 2

/-- The mutable state of _RWLockCore: the two waiter deques, the two hold
counts (Python ints, which can go negative, hence Int), and the _owning
list of (task, lock_type) pairs. -/
structure RWLockCore where
  read_waiters : List Fut
  write_waiters : List Fut
  r_state : Int
  w_state : Int
  owning : List (Nat × Nat)
deriving DecidableEq

/-- _RWLockCore.__init__: empty queues, zero counts, empty owning list. -/
def initState : RWLockCore := ⟨[], [], 0, 0, []⟩

/-- read_locked property: self._r_state > 0. -/
def read_locked (s : RWLockCore) : Bool := decide (0 < s.r_state)

/-- write_locked property: self._w_state > 0. -/
def write_locked (s : RWLockCore) : Bool := decide (0 < s.w_state)

/-- The writer-waking loop of _wake_up: iterate the deque in FIFO order,
fulfil (set_result) the first future that is not done and stop there;
return none when every future in the deque is done (then _wake_up falls
through to the reader loop). -/
def fulfillFirstPending : List Fut → Option (List Fut)
  | [] => none
  | f :: rest =>
    if f.done then (fulfillFirstPending rest).map (fun l => f :: l)
    else some ({ f with st := FutState.fulfilled } :: rest)

/-- The reader-waking loop of _wake_up: fulfil every future that is not
done, returning the new deque and the number of futures fulfilled (the
code increments _r_state once per set_result). -/
def fulfillAllPending : List Fut → List Fut × Nat
  | [] => ([], 0)
  | f :: rest =>
    let p := fulfillAllPending rest
    if f.done then (f :: p.1, p.2)
    else ({ f with st := FutState.fulfilled } :: p.1, p.2 + 1)

/-- _RWLockCore._wake_up: if no one is reading or writing, wake the first
non-done write waiter (incrementing _w_state and returning), and if there
is none, wake all non-done read waiters (incrementing _r_state per wake). -/
def wake_up (s : RWLockCore) : RWLockCore :=
  if s.r_state = 0 ∧ s.w_state = 0 then
    match fulfillFirstPending s.write_waiters with
    | some ws => { s with write_waiters := ws, w_state := s.w_state + 1 }
    | none =>
      let p := fulfillAllPending s.read_waiters
      { s with read_waiters := p.1, r_state := s.r_state + (p.2 : Int) }
  else s

/-- Error taxonomy of the RuntimeErrors raised by the module. -/
inductive LockError
  | cannotUpgrade
  | cannotRelease
  | syncContextManager
deriving DecidableEq

/-- Outcome of the first atomic segment of acquire_read / acquire_write:
an immediate grant with the new state, an enqueued future (the task
suspends on it), or the upgrade RuntimeError (state returned unchanged). -/
inductive AcquireResult
  | granted : RWLockCore → AcquireResult
  | queued : RWLockCore → AcquireResult
  | upgradeError : RWLockCore → AcquireResult
deriving DecidableEq

/-- The immediate-grant effect of acquire_read (both the reentrant branch
and the uncontended branch have this body): increment _r_state and append
(me, _RL) to _owning. -/
def grantRead (me : Nat) (s : RWLockCore) : RWLockCore :=
  { s with r_state := s.r_state + 1, owning := s.owning ++ [(me, RL)] }

/-- The immediate-grant effect of acquire_write: increment _w_state and
append (me, _WL) to _owning. -/
def grantWrite (me : Nat) (s : RWLockCore) : RWLockCore :=
  { s with w_state := s.w_state + 1, owning := s.owning ++ [(me, WL)] }

/-- First atomic segment of _RWLockCore.acquire_read (src lines 65 to 85):
reentrant grant when me already owns the lock in either mode; immediate
grant when there are no write waiters, _r_state >= 0 and _w_state == 0;
otherwise create a future (fresh identity fid) and append it to
_read_waiters, suspending the caller. -/
def acquire_read (me fid : Nat) (s : RWLockCore) : AcquireResult :=
  if (me, RL) ∈ s.owning ∨ (me, WL) ∈ s.owning then
    .granted (grantRead me s)
  else if s.write_waiters = [] ∧ 0 ≤ s.r_state ∧ s.w_state = 0 then
    .granted (grantRead me s)
  else
    .queued { s with read_waiters := s.read_waiters ++ [⟨fid, me, FutState.pending⟩] }

/-- First atomic segment of _RWLockCore.acquire_write (src lines 101 to
120): reentrant grant when me already owns the write lock; the upgrade
RuntimeError when me owns only the read lock and _r_state > 0 (when
_r_state <= 0 the code falls through); immediate grant when both counts
are zero; otherwise enqueue a fresh future on _write_waiters. -/
def acquire_write (me fid : Nat) (s : RWLockCore) : AcquireResult :=
  if (me, WL) ∈ s.owning then
    .granted (grantWrite me s)
  else if (me, RL) ∈ s.owning ∧ 0 < s.r_state then
    .upgradeError s
  else if s.r_state = 0 ∧ s.w_state = 0 then
    .granted (grantWrite me s)
  else
    .queued { s with write_waiters := s.write_waiters ++ [⟨fid, me, FutState.pending⟩] }

/-- _RWLockCore._release (src lines 140 to 151): remove the first
(me, lock_type) entry of _owning (RuntimeError when there is none),
decrement the matching count, then run _wake_up. -/
def release (me lock_type : Nat) (s : RWLockCore) : Except LockError RWLockCore :=
  if (me, lock_type) ∈ s.owning then
    let s1 := { s with owning := s.owning.erase (me, lock_type) }
    let s2 := if lock_type = RL then { s1 with r_state := s1.r_state - 1 }
              else { s1 with w_state := s1.w_state - 1 }
    .ok (wake_up s2)
  else
    .error LockError.cannotRelease

/-- Resumption of a read waiter whose future was fulfilled: the coroutine
continues after await fut, appends (me, _RL) to _owning, and the finally
branch removes the future from _read_waiters (src lines 87 to 89 and 97). -/
def resume_read (fid : Nat) (s : RWLockCore) : RWLockCore :=
  match s.read_waiters.find? (fun f => f.id == fid) with
  | some f =>
    { s with owning := s.owning ++ [(f.task, RL)],
             read_waiters := s.read_waiters.eraseP (fun g => g.id == fid) }
  | none => s

/-- Resumption of a write waiter whose future was fulfilled (src lines
122 to 124 and 132). -/
def resume_write (fid : Nat) (s : RWLockCore) : RWLockCore :=
  match s.write_waiters.find? (fun f => f.id == fid) with
  | some f =>
    { s with owning := s.owning ++ [(f.task, WL)],
             write_waiters := s.write_waiters.eraseP (fun g => g.id == fid) }
  | none => s

/-- Cancellation of a queued read waiter (src lines 91 to 97 plus the
asyncio cancellation semantics): the future, if still pending, becomes
cancelled (done); the except branch decrements _r_state unconditionally
and re-runs _wake_up (which skips done futures); the finally branch
removes the future from _read_waiters. -/
def cancel_read (fid : Nat) (s : RWLockCore) : RWLockCore :=
  let rw := s.read_waiters.map fun f =>
    if f.id == fid && !f.done then { f with st := FutState.cancelled } else f
  let s2 := wake_up { s with read_waiters := rw, r_state := s.r_state - 1 }
  { s2 with read_waiters := s2.read_waiters.eraseP (fun f => f.id == fid) }

/-- Cancellation of a queued write waiter (src lines 126 to 132):
symmetric to cancel_read, decrementing _w_state. -/
def cancel_write (fid : Nat) (s : RWLockCore) : RWLockCore :=
  let ww := s.write_waiters.map fun f =>
    if f.id == fid && !f.done then { f with st := FutState.cancelled } else f
  let s2 := wake_up { s with write_waiters := ww, w_state := s.w_state - 1 }
  { s2 with write_waiters := s2.write_waiters.eraseP (fun f => f.id == fid) }

/-- Cancellation delivered during the fairness yield of
_yield_after_acquire (src lines 55 to 62, non-fast mode): the handler
calls self._release(lock_type) and then self._wake_up() again before the
CancelledError propagates. -/
def yield_after_acquire_cancelled (me lock_type : Nat) (s : RWLockCore) :
    Except LockError RWLockCore :=
  match release me lock_type s with
  | .ok s1 => .ok (wake_up s1)
  | .error e => .error e

/-- Identities of the futures currently sitting in either waiter queue. -/
def futIds (s : RWLockCore) : List Nat :=
  (s.read_waiters ++ s.write_waiters).map Fut.id

/-- One atomic scheduling step of the lock on the single event loop: a
task runs one atomic segment of an acquire, a release, the resumption of
a fulfilled waiter, or the cancellation cleanup of a parked waiter.
Enqueue steps require the new future identity to be fresh, and a
cancellation targets a future still parked in a queue (a cancelled future
never stays queued, its removal being part of the cancellation step). -/
inductive Step : RWLockCore → RWLockCore → Prop
  | acqReadGranted (me fid : Nat) (s s' : RWLockCore) :
      acquire_read me fid s = .granted s' → Step s s'
  | acqReadQueued (me fid : Nat) (s s' : RWLockCore) :
      fid ∉ futIds s → acquire_read me fid s = .queued s' → Step s s'
  | acqWriteGranted (me fid : Nat) (s s' : RWLockCore) :
      acquire_write me fid s = .granted s' → Step s s'
  | acqWriteQueued (me fid : Nat) (s s' : RWLockCore) :
      fid ∉ futIds s → acquire_write me fid s = .queued s' → Step s s'
  | releaseStep (me lock_type : Nat) (s s' : RWLockCore) :
      release me lock_type s = .ok s' → Step s s'
  | cancelReadStep (fid : Nat) (s s' : RWLockCore) :
      (∃ f ∈ s.read_waiters, f.id = fid ∧ f.st ≠ FutState.cancelled) →
      cancel_read fid s = s' → Step s s'
  | cancelWriteStep (fid : Nat) (s s' : RWLockCore) :
      (∃ f ∈ s.write_waiters, f.id = fid ∧ f.st ≠ FutState.cancelled) →
      cancel_write fid s = s' → Step s s'
  | resumeReadStep (fid : Nat) (s s' : RWLockCore) :
      (∃ f ∈ s.read_waiters, f.id = fid ∧ f.st = FutState.fulfilled) →
      resume_read fid s = s' → Step s s'
  | resumeWriteStep (fid : Nat) (s s' : RWLockCore) :
      (∃ f ∈ s.write_waiters, f.id = fid ∧ f.st = FutState.fulfilled) →
      resume_write fid s = s' → Step s s'

/-- A state of the lock core reachable from the freshly constructed lock
by some interleaving of task steps. -/
def Reachable (s : RWLockCore) : Prop :=
  Relation.ReflTransGen Step initState s

/-- A label naming one atomic step of an execution, used to run concrete
interleavings of the embedded operations. -/
inductive Op
  | acqRead (me fid : Nat)
  | acqWrite (me fid : Nat)
  | rel (me lock_type : Nat)
  | cancelR (fid : Nat)
  | cancelW (fid : Nat)
  | resumeR (fid : Nat)
  | resumeW (fid : Nat)
deriving DecidableEq

/-- Run one labeled step, returning none when the step is not enabled in
the given state (so a successful run witnesses a genuine execution). -/
def applyOp : Op → RWLockCore → Option RWLockCore
  | Op.acqRead me fid, s =>
    match acquire_read me fid s with
    | .granted s' => some s'
    | .queued s' => if fid ∈ futIds s then none else some s'
    | .upgradeError _ => none
  | Op.acqWrite me fid, s =>
    match acquire_write me fid s with
    | .granted s' => some s'
    | .queued s' => if fid ∈ futIds s then none else some s'
    | .upgradeError _ => none
  | Op.rel me lock_type, s =>
    match release me lock_type s with
    | .ok s' => some s'
    | .error _ => none
  | Op.cancelR fid, s =>
    if s.read_waiters.any (fun f => f.id == fid && f.st != FutState.cancelled) then
      some (cancel_read fid s)
    else none
  | Op.cancelW fid, s =>
    if s.write_waiters.any (fun f => f.id == fid && f.st != FutState.cancelled) then
      some (cancel_write fid s)
    else none
  | Op.resumeR fid, s =>
    if s.read_waiters.any (fun f => f.id == fid && f.st == FutState.fulfilled) then
      some (resume_read fid s)
    else none
  | Op.resumeW fid, s =>
    if s.write_waiters.any (fun f => f.id == fid && f.st == FutState.fulfilled) then
      some (resume_write fid s)
    else none

/-- Run a list of labeled steps in order. -/
def runOps : List Op → RWLockCore → Option RWLockCore
  | [], s => some s
  | op :: rest, s => (applyOp op s).bind (runOps rest)

/-- n successive reentrant read grants by task me. -/
def grantReadN (me : Nat) : Nat → RWLockCore → RWLockCore
  | 0, s => s
  | n + 1, s => grantRead me (grantReadN me n s)

/-- n successive release_read calls by task me, none of which may fail. -/
def releaseReadN (me : Nat) : Nat → RWLockCore → Option RWLockCore
  | 0, s => some s
  | n + 1, s =>
    match release me RL s with
    | .ok s1 => releaseReadN me n s1
    | .error _ => none

/-- n successive reentrant write grants by task me. -/
def grantWriteN (me : Nat) : Nat → RWLockCore → RWLockCore
  | 0, s => s
  | n + 1, s => grantWrite me (grantWriteN me n s)

/-- n successive release_write calls by task me, none of which may fail. -/
def releaseWriteN (me : Nat) : Nat → RWLockCore → Option RWLockCore
  | 0, s => some s
  | n + 1, s =>
    match release me WL s with
    | .ok s1 => releaseWriteN me n s1
    | .error _ => none

/-- The synchronous context-manager entry of _ContextManagerMixin
(src lines 175 to 178): it raises RuntimeError unconditionally, before
touching the lock. -/
def mixin_enter (_s : RWLockCore) : Except LockError RWLockCore :=
  .error LockError.syncContextManager

/-- _ReaderLock asynchronous context manager entry: core.acquire_read
(src lines 185 to 189 and 210 to 211). -/
def reader_aenter (me fid : Nat) (s : RWLockCore) : AcquireResult := acquire_read me fid s

/-- _ReaderLock asynchronous context manager exit: core.release_read
(src lines 191 to 192 and 213 to 214). -/
def reader_aexit (me : Nat) (s : RWLockCore) : Except LockError RWLockCore := release me RL s

/-- _WriterLock asynchronous context manager entry: core.acquire_write. -/
def writer_aenter (me fid : Nat) (s : RWLockCore) : AcquireResult := acquire_write me fid s

/-- _WriterLock asynchronous context manager exit: core.release_write. -/
def writer_aexit (me : Nat) (s : RWLockCore) : Except LockError RWLockCore := release me WL s

/-
Concrete executions used by the claims about reachable states.  The root
cause of the failures of C1 to C4 is one and the same: the CancelledError
branch of a queued acquire decrements the hold count even when the
waiter's future was never fulfilled, i.e. when no grant was ever counted
for it.
-/

/-- C1 trace: task 10 acquires read; task 11 queues for write; task 12
queues for read behind the writer; task 12 is cancelled while its future
is still pending, which decrements _r_state to 0 and lets _wake_up grant
the write to task 11 while task 10 still owns a read grant; task 10 then
reentrantly acquires read again. -/
def c1_ops : List Op :=
  [Op.acqRead 10 100, Op.acqWrite 11 101, Op.acqRead 12 102,
   Op.cancelR 102, Op.acqRead 10 103]

/-- Final state of the C1 trace: both hold counts positive at once. -/
def c1_bad : RWLockCore :=
  ⟨[], [⟨101, 11, FutState.fulfilled⟩], 1, 1, [(10, RL), (10, RL)]⟩

/-- C2 trace: task 10 acquires write; task 12 queues for read; task 12 is
cancelled while its future is still pending. -/
def c2_ops : List Op := [Op.acqWrite 10 100, Op.acqRead 12 101, Op.cancelR 101]

/-- Final state of the C2 trace: the read hold count is negative. -/
def c2_bad : RWLockCore := ⟨[], [], -1, 1, [(10, WL)]⟩

/-- C3 trace: task 10 acquires write; task 12 queues for write. -/
def c3_ops : List Op := [Op.acqWrite 10 100, Op.acqWrite 12 101]

/-- State of the C3 trace at the moment task 12 enqueued: _w_state = 1. -/
def c3_enq : RWLockCore := ⟨[], [⟨101, 12, FutState.pending⟩], 0, 1, [(10, WL)]⟩

/-- State after task 12 is cancelled with its slot still unfulfilled. -/
def c3_end : RWLockCore := ⟨[], [], 0, 0, [(10, WL)]⟩

/-- C4 trace: task 10 acquires write then (reentrantly) read; tasks 12
and 13 queue for read; both are cancelled while pending (driving _r_state
to -1); task 10 releases the write lock; task 14 queues for read (the
negative _r_state forces it to queue although no writer holds or waits);
task 10 reentrantly acquires read, bringing _r_state back to 0. -/
def c4_ops : List Op :=
  [Op.acqWrite 10 100, Op.acqRead 10 110, Op.acqRead 12 101, Op.acqRead 13 102,
   Op.cancelR 101, Op.cancelR 102, Op.rel 10 WL, Op.acqRead 14 103, Op.acqRead 10 111]

/-- Final state of the C4 trace: both counts are zero, task 14's slot is
pending, and no future anywhere is fulfilled, so no resumption or wake-up
is outstanding: the state is stable and task 14 is never woken. -/
def c4_bad : RWLockCore :=
  ⟨[⟨103, 14, FutState.pending⟩], [], 0, 0, [(10, RL), (10, RL)]⟩

/-- A sample free state with one pending write waiter, used to witness C5. -/
def c5_sample : RWLockCore := ⟨[], [⟨1, 2, FutState.pending⟩], 0, 0, []⟩

/-- C6 counterexample trace: task 10 acquires read; task 12 queues for
write; task 13 queues for read; task 13 is cancelled while pending (the
spurious decrement takes _r_state to 0 and _wake_up grants task 12);
task 12 is then cancelled before resuming (the legitimate compensation
takes _w_state back to 0).  Task 10 is left owning a read grant while
_r_state = 0. -/
def c6_ops : List Op :=
  [Op.acqRead 10 100, Op.acqWrite 12 101, Op.acqRead 13 102,
   Op.cancelR 102, Op.cancelW 101]

/-- Final state of the C6 trace: task 10 owns a read grant (and no write
grant) but _r_state = 0, so the upgrade guard of acquire_write does not
fire. -/
def c6_bad : RWLockCore := ⟨[], [], 0, 0, [(10, RL)]⟩

/-- C7 counterexample trace: task 10 acquires write then reentrant read;
task 12 queues for read (a writer holds the lock); task 10 releases the
write lock (the wake-up is a no-op since _r_state = 1). -/
def c7_ops : List Op :=
  [Op.acqWrite 10 100, Op.acqRead 10 110, Op.acqRead 12 101, Op.rel 10 WL]

/-- Reachable state before the release under test: task 10 owns one read
grant, _r_state = 1, task 12 waits (pending) in the reader queue. -/
def c7_pre : RWLockCore :=
  ⟨[⟨101, 12, FutState.pending⟩], [], 1, 0, [(10, RL)]⟩

/-- State after release_read by task 10 at c7_pre: the release decrements
_r_state to 0, but its wake-up immediately batch-grants the queued reader,
so _r_state ends at 1 again. -/
def c7_post : RWLockCore :=
  ⟨[⟨101, 12, FutState.fulfilled⟩], [], 1, 0, []⟩

/-- A sample one-reader state used to witness the amended C7. -/
def c7_sample : RWLockCore := ⟨[], [], 1, 0, [(3, RL)]⟩

/-- A sample one-reader state used to witness C8. -/
def c8_sample : RWLockCore := ⟨[], [], 1, 0, [(5, RL)]⟩

/-- C8 counterexample trace: the same nine steps as the C4 trace, ending
with task 10 owning two read grants while _r_state = 0 and task 14's
read slot still pending. -/
def c8_bad_ops : List Op :=
  [Op.acqWrite 10 100, Op.acqRead 10 110, Op.acqRead 12 101, Op.acqRead 13 102,
   Op.cancelR 101, Op.cancelR 102, Op.rel 10 WL, Op.acqRead 14 103, Op.acqRead 10 111]

/-- Reachable state for the C8 counterexample: task 10 holds two read
grants while _r_state = 0. -/
def c8_bad : RWLockCore :=
  ⟨[⟨103, 14, FutState.pending⟩], [], 0, 0, [(10, RL), (10, RL)]⟩

/-- State after a reentrant acquire_read by task 10 at c8_bad followed by
the matching release_read: the release drops _r_state back to 0, so its
wake-up fires and fulfils task 14's slot, leaving _r_state = 1 and a
changed reader queue instead of restoring c8_bad. -/
def c8_after : RWLockCore :=
  ⟨[⟨103, 14, FutState.fulfilled⟩], [], 1, 0, [(10, RL), (10, RL)]⟩

/-
General lemmas about the embedded operations.
-/

lemma applyOp_step {op : Op} {s t : RWLockCore} (h : applyOp op s = some t) : Step s t := by
  cases op with
  | acqRead me fid =>
    simp only [applyOp] at h
    cases hq : acquire_read me fid s with
    | granted s' => rw [hq] at h; cases h; exact Step.acqReadGranted me fid s _ hq
    | queued s' =>
      rw [hq] at h
      by_cases hm : fid ∈ futIds s
      · simp [hm] at h
      · simp [hm] at h; cases h; exact Step.acqReadQueued me fid s _ hm hq
    | upgradeError s' => rw [hq] at h; cases h
  | acqWrite me fid =>
    simp only [applyOp] at h
    cases hq : acquire_write me fid s with
    | granted s' => rw [hq] at h; cases h; exact Step.acqWriteGranted me fid s _ hq
    | queued s' =>
      rw [hq] at h
      by_cases hm : fid ∈ futIds s
      · simp [hm] at h
      · simp [hm] at h; cases h; exact Step.acqWriteQueued me fid s _ hm hq
    | upgradeError s' => rw [hq] at h; cases h
  | rel me lock_type =>
    simp only [applyOp] at h
    cases hq : release me lock_type s with
    | ok s' => rw [hq] at h; cases h; exact Step.releaseStep me lock_type s _ hq
    | error e => rw [hq] at h; cases h
  | cancelR fid =>
    simp only [applyOp] at h
    by_cases hc : s.read_waiters.any (fun f => f.id == fid && f.st != FutState.cancelled)
    · rw [if_pos hc] at h; cases h
      refine Step.cancelReadStep fid s _ ?_ rfl
      obtain ⟨f, hf, hp⟩ := List.any_eq_true.mp hc
      exact ⟨f, hf, by simpa using hp⟩
    · rw [if_neg hc] at h; cases h
  | cancelW fid =>
    simp only [applyOp] at h
    by_cases hc : s.write_waiters.any (fun f => f.id == fid && f.st != FutState.cancelled)
    · rw [if_pos hc] at h; cases h
      refine Step.cancelWriteStep fid s _ ?_ rfl
      obtain ⟨f, hf, hp⟩ := List.any_eq_true.mp hc
      exact ⟨f, hf, by simpa using hp⟩
    · rw [if_neg hc] at h; cases h
  | resumeR fid =>
    simp only [applyOp] at h
    by_cases hc : s.read_waiters.any (fun f => f.id == fid && f.st == FutState.fulfilled)
    · rw [if_pos hc] at h; cases h
      refine Step.resumeReadStep fid s _ ?_ rfl
      obtain ⟨f, hf, hp⟩ := List.any_eq_true.mp hc
      exact ⟨f, hf, by simpa using hp⟩
    · rw [if_neg hc] at h; cases h
  | resumeW fid =>
    simp only [applyOp] at h
    by_cases hc : s.write_waiters.any (fun f => f.id == fid && f.st == FutState.fulfilled)
    · rw [if_pos hc] at h; cases h
      refine Step.resumeWriteStep fid s _ ?_ rfl
      obtain ⟨f, hf, hp⟩ := List.any_eq_true.mp hc
      exact ⟨f, hf, by simpa using hp⟩
    · rw [if_neg hc] at h; cases h

lemma runOps_steps : ∀ (ops : List Op) (s t : RWLockCore),
    runOps ops s = some t → Relation.ReflTransGen Step s t := by
  intro ops
  induction ops with
  | nil => intro s t h; cases h; exact Relation.ReflTransGen.refl
  | cons op rest ih =>
    intro s t h
    simp only [runOps] at h
    cases hu : applyOp op s with
    | none => rw [hu] at h; cases h
    | some u =>
      rw [hu] at h
      exact Relation.ReflTransGen.head (applyOp_step hu) (ih u t h)

/-- A state produced by running a concrete list of enabled steps from the
initial state is reachable. -/
lemma runOps_reachable {ops : List Op} {t : RWLockCore}
    (h : runOps ops initState = some t) : Reachable t :=
  runOps_steps ops initState t h

lemma wake_up_not_free {s : RWLockCore} (h : ¬(s.r_state = 0 ∧ s.w_state = 0)) :
    wake_up s = s := by
  simp [wake_up, h]

lemma ffp_none_iff (l : List Fut) :
    fulfillFirstPending l = none ↔ ∀ f ∈ l, f.done = true := by
  induction l with
  | nil => simp [fulfillFirstPending]
  | cons f rest ih =>
    cases hd : f.done with
    | true => simp [fulfillFirstPending, hd, Option.map_eq_none', ih]
    | false => simp [fulfillFirstPending, hd]

lemma ffp_some_spec {l l' : List Fut} (h : fulfillFirstPending l = some l') :
    ∃ l1 f l2, l = l1 ++ f :: l2 ∧ (∀ g ∈ l1, g.done = true) ∧ f.done = false ∧
      l' = l1 ++ { f with st := FutState.fulfilled } :: l2 := by
  induction l generalizing l' with
  | nil => simp [fulfillFirstPending] at h
  | cons f rest ih =>
    cases hd : f.done with
    | true =>
      simp only [fulfillFirstPending, hd, if_true] at h
      obtain ⟨rest', hr, hl'⟩ := Option.map_eq_some'.mp h
      obtain ⟨l1, g, l2, hrest, hall, hg, hrest'⟩ := ih hr
      refine ⟨f :: l1, g, l2, by simp [hrest], ?_, hg, by simp [← hl', hrest']⟩
      intro x hx
      rcases List.mem_cons.mp hx with h1 | h2
      · exact h1 ▸ hd
      · exact hall x h2
    | false =>
      simp [fulfillFirstPending, hd] at h
      exact ⟨[], f, rest, by simp, by simp, hd, by simp [← h]⟩

lemma fap_eq (l : List Fut) :
    fulfillAllPending l =
      (l.map (fun f => if f.done then f else { f with st := FutState.fulfilled }),
       l.countP (fun f => !f.done)) := by
  induction l with
  | nil => simp [fulfillAllPending]
  | cons f rest ih =>
    cases hd : f.done with
    | true => simp [fulfillAllPending, hd, ih, List.countP_cons]
    | false => simp [fulfillAllPending, hd, ih, List.countP_cons]

lemma coe_erase_pair (l : List (Nat × Nat)) (a : Nat × Nat) :
    ((l.erase a : List (Nat × Nat)) : Multiset (Nat × Nat)) =
      Multiset.erase (l : Multiset (Nat × Nat)) a := by
  induction l with
  | nil => rfl
  | cons b t ih =>
    by_cases hb : b = a
    · subst hb
      rw [List.erase_cons_head, ← Multiset.cons_coe, Multiset.erase_cons_head]
    · rw [List.erase_cons_tail (by simpa using hb), ← Multiset.cons_coe, ← Multiset.cons_coe,
        Multiset.erase_cons_tail _ hb, ih]

lemma acquire_read_reentrant {s : RWLockCore} {me : Nat} (fid : Nat)
    (h : (me, RL) ∈ s.owning ∨ (me, WL) ∈ s.owning) :
    acquire_read me fid s = .granted (grantRead me s) := by
  unfold acquire_read
  rw [if_pos h]

lemma release_read_no_wake {u : RWLockCore} {me : Nat} (hm : (me, RL) ∈ u.owning)
    (h : ¬(u.r_state - 1 = 0 ∧ u.w_state = 0)) :
    release me RL u =
      .ok { u with owning := u.owning.erase (me, RL), r_state := u.r_state - 1 } := by
  have hw : wake_up { u with owning := u.owning.erase (me, RL), r_state := u.r_state - 1 } =
      { u with owning := u.owning.erase (me, RL), r_state := u.r_state - 1 } :=
    wake_up_not_free (by simpa using h)
  simp [release, hm, hw]

lemma grantReadN_fields (me : Nat) (n : Nat) (s : RWLockCore) :
    (grantReadN me n s).read_waiters = s.read_waiters ∧
    (grantReadN me n s).write_waiters = s.write_waiters ∧
    (grantReadN me n s).r_state = s.r_state + n ∧
    (grantReadN me n s).w_state = s.w_state ∧
    ((grantReadN me n s).owning : Multiset (Nat × Nat)) =
      Multiset.replicate n (me, RL) + (s.owning : Multiset (Nat × Nat)) := by
  induction n with
  | zero => simp [grantReadN]
  | succ n ih =>
    obtain ⟨h1, h2, h3, h4, h5⟩ := ih
    refine ⟨by simp [grantReadN, grantRead, h1], by simp [grantReadN, grantRead, h2],
      by simp [grantReadN, grantRead, h3]; ring,
      by simp [grantReadN, grantRead, h4], ?_⟩
    show ((grantReadN me n s).owning ++ [(me, RL)] : Multiset (Nat × Nat)) = _
    rw [← Multiset.coe_add, h5]
    simp only [Multiset.replicate_succ, ← Multiset.singleton_add, Multiset.coe_singleton]
    abel

lemma releaseReadN_spec (me : Nat) :
    ∀ (n : Nat) (u : RWLockCore) (M : Multiset (Nat × Nat)) (R : Int),
      (u.owning : Multiset (Nat × Nat)) = Multiset.replicate n (me, RL) + M →
      (me, RL) ∈ M → u.r_state = R + n → 0 < R →
      ∃ t, releaseReadN me n u = some t ∧
        t.read_waiters = u.read_waiters ∧ t.write_waiters = u.write_waiters ∧
        t.r_state = R ∧ t.w_state = u.w_state ∧
        (t.owning : Multiset (Nat × Nat)) = M := by
  intro n
  induction n with
  | zero =>
    intro u M R hown hmem hr hR
    exact ⟨u, rfl, rfl, rfl, by simpa using hr, rfl, by simpa using hown⟩
  | succ n ih =>
    intro u M R hown hmem hr hR
    have hm : (me, RL) ∈ u.owning := by
      rw [← Multiset.mem_coe, hown]
      exact Multiset.mem_add.mpr (Or.inl (Multiset.mem_replicate.mpr (by simp)))
    have hrpos : ¬(u.r_state - 1 = 0 ∧ u.w_state = 0) := by
      intro hc
      rw [hr] at hc
      have := hc.1
      push_cast at this
      omega
    have hrel := release_read_no_wake hm hrpos
    have hstep : releaseReadN me (n + 1) u = releaseReadN me n
        { u with owning := u.owning.erase (me, RL), r_state := u.r_state - 1 } := by
      conv_lhs => rw [releaseReadN, hrel]
    have hcoe : ((u.owning.erase (me, RL) : List (Nat × Nat)) : Multiset (Nat × Nat)) =
        Multiset.replicate n (me, RL) + M :=
      calc ((u.owning.erase (me, RL) : List (Nat × Nat)) : Multiset (Nat × Nat))
          = Multiset.erase (u.owning : Multiset (Nat × Nat)) (me, RL) :=
            coe_erase_pair _ _
        _ = Multiset.erase (Multiset.replicate (n + 1) (me, RL) + M) (me, RL) := by rw [hown]
        _ = Multiset.replicate n (me, RL) + M := by
            rw [Multiset.replicate_succ, Multiset.cons_add, Multiset.erase_cons_head]
    obtain ⟨t, ht, h1, h2, h3, h4, h5⟩ := ih
      { u with owning := u.owning.erase (me, RL), r_state := u.r_state - 1 } M R
      hcoe hmem (by show u.r_state - 1 = R + (n : Int); rw [hr]; push_cast; ring) hR
    exact ⟨t, hstep ▸ ht, h1, h2, h3, h4, h5⟩

lemma acquire_write_reentrant {s : RWLockCore} {me : Nat} (fid : Nat)
    (h : (me, WL) ∈ s.owning) :
    acquire_write me fid s = .granted (grantWrite me s) := by
  unfold acquire_write
  rw [if_pos h]

lemma release_write_no_wake {u : RWLockCore} {me : Nat} (hm : (me, WL) ∈ u.owning)
    (h : ¬(u.r_state = 0 ∧ u.w_state - 1 = 0)) :
    release me WL u =
      .ok { u with owning := u.owning.erase (me, WL), w_state := u.w_state - 1 } := by
  have hw : wake_up { u with owning := u.owning.erase (me, WL), w_state := u.w_state - 1 } =
      { u with owning := u.owning.erase (me, WL), w_state := u.w_state - 1 } :=
    wake_up_not_free (by simpa using h)
  have hne : ¬(WL = RL) := by decide
  simp [release, hm, hw, hne]

lemma grantWriteN_fields (me : Nat) (n : Nat) (s : RWLockCore) :
    (grantWriteN me n s).read_waiters = s.read_waiters ∧
    (grantWriteN me n s).write_waiters = s.write_waiters ∧
    (grantWriteN me n s).r_state = s.r_state ∧
    (grantWriteN me n s).w_state = s.w_state + n ∧
    ((grantWriteN me n s).owning : Multiset (Nat × Nat)) =
      Multiset.replicate n (me, WL) + (s.owning : Multiset (Nat × Nat)) := by
  induction n with
  | zero => simp [grantWriteN]
  | succ n ih =>
    obtain ⟨h1, h2, h3, h4, h5⟩ := ih
    refine ⟨by simp [grantWriteN, grantWrite, h1], by simp [grantWriteN, grantWrite, h2],
      by simp [grantWriteN, grantWrite, h3],
      by simp [grantWriteN, grantWrite, h4]; ring, ?_⟩
    show ((grantWriteN me n s).owning ++ [(me, WL)] : Multiset (Nat × Nat)) = _
    rw [← Multiset.coe_add, h5]
    simp only [Multiset.replicate_succ, ← Multiset.singleton_add, Multiset.coe_singleton]
    abel

lemma releaseWriteN_spec (me : Nat) :
    ∀ (n : Nat) (u : RWLockCore) (M : Multiset (Nat × Nat)) (W : Int),
      (u.owning : Multiset (Nat × Nat)) = Multiset.replicate n (me, WL) + M →
      (me, WL) ∈ M → u.w_state = W + n → 0 < W →
      ∃ t, releaseWriteN me n u = some t ∧
        t.read_waiters = u.read_waiters ∧ t.write_waiters = u.write_waiters ∧
        t.r_state = u.r_state ∧ t.w_state = W ∧
        (t.owning : Multiset (Nat × Nat)) = M := by
  intro n
  induction n with
  | zero =>
    intro u M W hown hmem hw hW
    exact ⟨u, rfl, rfl, rfl, rfl, by simpa using hw, by simpa using hown⟩
  | succ n ih =>
    intro u M W hown hmem hw hW
    have hm : (me, WL) ∈ u.owning := by
      rw [← Multiset.mem_coe, hown]
      exact Multiset.mem_add.mpr (Or.inl (Multiset.mem_replicate.mpr (by simp)))
    have hwpos : ¬(u.r_state = 0 ∧ u.w_state - 1 = 0) := by
      intro hc
      rw [hw] at hc
      have := hc.2
      push_cast at this
      omega
    have hrel := release_write_no_wake hm hwpos
    have hstep : releaseWriteN me (n + 1) u = releaseWriteN me n
        { u with owning := u.owning.erase (me, WL), w_state := u.w_state - 1 } := by
      conv_lhs => rw [releaseWriteN, hrel]
    have hcoe : ((u.owning.erase (me, WL) : List (Nat × Nat)) : Multiset (Nat × Nat)) =
        Multiset.replicate n (me, WL) + M :=
      calc ((u.owning.erase (me, WL) : List (Nat × Nat)) : Multiset (Nat × Nat))
          = Multiset.erase (u.owning : Multiset (Nat × Nat)) (me, WL) :=
            coe_erase_pair _ _
        _ = Multiset.erase (Multiset.replicate (n + 1) (me, WL) + M) (me, WL) := by rw [hown]
        _ = Multiset.replicate n (me, WL) + M := by
            rw [Multiset.replicate_succ, Multiset.cons_add, Multiset.erase_cons_head]
    obtain ⟨t, ht, h1, h2, h3, h4, h5⟩ := ih
      { u with owning := u.owning.erase (me, WL), w_state := u.w_state - 1 } M W
      hcoe hmem (by show u.w_state - 1 = W + (n : Int); rw [hw]; push_cast; ring) hW
    exact ⟨t, hstep ▸ ht, h1, h2, h3, h4, h5⟩

lemma append_erase_perm (l : List (Nat × Nat)) (a : Nat × Nat) :
    ((l ++ [a]).erase a).Perm l := by
  apply Multiset.coe_eq_coe.mp
  rw [coe_erase_pair, ← Multiset.coe_add, Multiset.coe_singleton, add_comm,
    Multiset.singleton_add, Multiset.erase_cons_head]

lemma acquire_read_granted_inv {me fid : Nat} {s s' : RWLockCore}
    (h : acquire_read me fid s = .granted s') : s' = grantRead me s := by
  unfold acquire_read at h
  split_ifs at h
  · injection h with h
    exact h.symm
  · injection h with h
    exact h.symm

lemma acquire_write_granted_inv {me fid : Nat} {s s' : RWLockCore}
    (h : acquire_write me fid s = .granted s') : s' = grantWrite me s := by
  unfold acquire_write at h
  split_ifs at h
  · injection h with h
    exact h.symm
  · injection h with h
    exact h.symm

lemma wake_up_no_waiters (s : RWLockCore) (h1 : s.read_waiters = [])
    (h2 : s.write_waiters = []) : wake_up s = s := by
  obtain ⟨rw, ww, r, w, own⟩ := s
  simp only at h1 h2
  subst h1 h2
  by_cases hg : r = 0 ∧ w = 0
  · simp only at hg
    simp [wake_up, fulfillFirstPending, fulfillAllPending, hg]
  · exact wake_up_not_free (by simpa using hg)

/-
The claims.
-/

/-- Claim C1: for every reachable state, a positive read hold count and a
positive write hold count never occur simultaneously.  REFUTED: the state
c1_bad is reachable (by the five-step execution c1_ops, which cancels a
pending read waiter) and has _r_state = 1 and _w_state = 1. -/
theorem c1_mutual_exclusion_violated :
    Reachable c1_bad ∧ 0 < c1_bad.r_state ∧ 0 < c1_bad.w_state :=
  ⟨runOps_reachable (show runOps c1_ops initState = some c1_bad by decide),
   by decide, by decide⟩

/-- Claim C2: for every reachable state the hold counts are non-negative,
in particular after a queued waiter is cancelled before its slot was
fulfilled.  REFUTED: cancelling the pending read waiter of the three-step
execution c2_ops drives _r_state to -1. -/
theorem c2_negative_count_reachable :
    Reachable c2_bad ∧ c2_bad.r_state = -1 :=
  ⟨runOps_reachable (show runOps c2_ops initState = some c2_bad by decide),
   by decide⟩

/-- Claim C3: cancelling a queued writer whose slot was never fulfilled
leaves the hold counts unchanged (decrements nothing).  REFUTED: in the
reachable state c3_enq the only write waiter is still pending, yet the
cancellation cleanup decrements _w_state from 1 to 0 while task 10 still
owns the write lock. -/
theorem c3_cancel_unfulfilled_decrements :
    Reachable c3_enq ∧ c3_enq.w_state = 1 ∧
    (∀ f ∈ c3_enq.write_waiters, f.st = FutState.pending) ∧
    cancel_write 101 c3_enq = c3_end ∧ c3_end.w_state = 0 :=
  ⟨runOps_reachable (show runOps c3_ops initState = some c3_enq by decide),
   by decide, by decide, by decide, by decide⟩

/-- Claim C4: the system never reaches a stable state with both counts
zero while some queued waiter's slot is unfulfilled.  REFUTED: c4_bad is
reachable, has _r_state = 0 and _w_state = 0, holds a pending read waiter,
and contains no fulfilled future (hence no pending resumption and no
outstanding wake-up): the queued reader of task 14 is deadlocked. -/
theorem c4_stable_deadlock_reachable :
    Reachable c4_bad ∧ c4_bad.r_state = 0 ∧ c4_bad.w_state = 0 ∧
    (∃ f ∈ c4_bad.read_waiters, f.st = FutState.pending) ∧
    (∀ f ∈ c4_bad.read_waiters ++ c4_bad.write_waiters, f.st ≠ FutState.fulfilled) :=
  ⟨runOps_reachable (show runOps c4_ops initState = some c4_bad by decide),
   by decide, by decide, by decide, by decide⟩

/-- Claim C5: _wake_up is a no-op unless both counts are zero; when both
are zero and the writer queue holds at least one unfulfilled (pending)
slot, exactly the first such slot in FIFO order is fulfilled, _w_state
grows by exactly one and no reader slot is touched; when both are zero
and no writer slot is unfulfilled, every unfulfilled reader slot is
fulfilled and _r_state grows by one per slot fulfilled.  CONFIRMED. -/
theorem c5_wake_up_correct (s : RWLockCore) :
    (¬(s.r_state = 0 ∧ s.w_state = 0) → wake_up s = s) ∧
    (s.r_state = 0 → s.w_state = 0 → (∃ f ∈ s.write_waiters, f.done = false) →
      ∃ l1 f l2, s.write_waiters = l1 ++ f :: l2 ∧ (∀ g ∈ l1, g.done = true) ∧
        f.done = false ∧
        wake_up s = { s with write_waiters := l1 ++ { f with st := FutState.fulfilled } :: l2,
                             w_state := s.w_state + 1 }) ∧
    (s.r_state = 0 → s.w_state = 0 → (∀ f ∈ s.write_waiters, f.done = true) →
      wake_up s = { s with
        read_waiters := s.read_waiters.map
          (fun f => if f.done then f else { f with st := FutState.fulfilled }),
        r_state := s.r_state + (s.read_waiters.countP (fun f => !f.done) : Int) }) := by
  refine ⟨wake_up_not_free, ?_, ?_⟩
  · intro hr hw hpend
    cases hs : fulfillFirstPending s.write_waiters with
    | none =>
      obtain ⟨f, hf, hfp⟩ := hpend
      have := (ffp_none_iff _).mp hs f hf
      rw [hfp] at this
      cases this
    | some ws =>
      obtain ⟨l1, f, l2, hww, hall, hf, hws⟩ := ffp_some_spec hs
      refine ⟨l1, f, l2, hww, hall, hf, ?_⟩
      simp [wake_up, hr, hw, hs, hws]
  · intro hr hw hall
    have hs : fulfillFirstPending s.write_waiters = none := (ffp_none_iff _).mpr hall
    simp [wake_up, hr, hw, hs, fap_eq]

/-- Witness for C5 at the concrete state c5_sample: the single pending
write waiter is fulfilled and _w_state becomes 1. -/
theorem c5_wake_up_correct_witness :
    ∃ l1 f l2, c5_sample.write_waiters = l1 ++ f :: l2 ∧ (∀ g ∈ l1, g.done = true) ∧
      f.done = false ∧
      wake_up c5_sample =
        { c5_sample with write_waiters := l1 ++ { f with st := FutState.fulfilled } :: l2,
                         w_state := c5_sample.w_state + 1 } :=
  (c5_wake_up_correct c5_sample).2.1 (by decide) (by decide)
    ⟨⟨1, 2, FutState.pending⟩, by decide, by decide⟩

/-- Claim C6 counterexample: as stated ("holds at least one read grant
and no write grant implies the upgrade error, with nothing enqueued and
no state change") the claim is false of the code: the state c6_bad is
reachable, task 10 owns a read grant and no write grant there, and yet
acquire_write is GRANTED (the upgrade succeeds, both modes held by task
10), because the guard on line 110 tests _r_state > 0 and the spurious
cancellation decrement has taken _r_state to 0. -/
theorem c6_counterexample :
    Reachable c6_bad ∧ (10, RL) ∈ c6_bad.owning ∧ (10, WL) ∉ c6_bad.owning ∧
    acquire_write 10 103 c6_bad = .granted (grantWrite 10 c6_bad) ∧
    ¬acquire_write 10 103 c6_bad = .upgradeError c6_bad :=
  ⟨runOps_reachable (show runOps c6_ops initState = some c6_bad by decide),
   by decide, by decide, by decide, by decide⟩

/-- Claim C6 as amended: if the calling task owns a read grant, owns no
write grant, and the read hold count is positive (which holding a read
grant implies whenever the counts are uncorrupted), acquire_write raises
the upgrade RuntimeError synchronously: the result carries the input
state unchanged, nothing is enqueued and nothing blocks.  PROVED. -/
theorem c6_upgrade_rejected (s : RWLockCore) (me fid : Nat)
    (hR : (me, RL) ∈ s.owning) (hW : (me, WL) ∉ s.owning) (hr : 0 < s.r_state) :
    acquire_write me fid s = .upgradeError s := by
  simp [acquire_write, hW, hR, hr]

/-- Witness for C6: task 7 owns one read grant in a one-reader state and
its acquire_write call returns the upgrade error with the state intact. -/
theorem c6_upgrade_rejected_witness :
    (7, RL) ∈ (⟨[], [], 1, 0, [(7, RL)]⟩ : RWLockCore).owning ∧
    (7, WL) ∉ (⟨[], [], 1, 0, [(7, RL)]⟩ : RWLockCore).owning ∧
    acquire_write 7 0 ⟨[], [], 1, 0, [(7, RL)]⟩ =
      .upgradeError ⟨[], [], 1, 0, [(7, RL)]⟩ :=
  ⟨by decide, by decide,
   c6_upgrade_rejected ⟨[], [], 1, 0, [(7, RL)]⟩ 7 0 (by decide) (by decide) (by decide)⟩

/-- Claim C7 counterexample: release_read with a matching ownership entry
does NOT always leave the corresponding count decremented by one: at the
reachable state c7_pre (no cancellations involved), release_read removes
the entry but the wake-up run by _release fulfils the queued reader, so
_r_state is 1 both before and after the call. -/
theorem c7_counterexample :
    Reachable c7_pre ∧ c7_pre.r_state = 1 ∧
    release 10 RL c7_pre = Except.ok c7_post ∧
    c7_post.r_state = 1 ∧ ¬c7_post.r_state = c7_pre.r_state - 1 :=
  ⟨runOps_reachable (show runOps c7_ops initState = some c7_pre by decide),
   by decide, rfl, by decide, by decide⟩

/-- Claim C7 as amended: a release with no matching (task, mode) entry
fails with the unacquired-lock RuntimeError and changes nothing; a
release with a matching entry removes exactly one entry, decrements the
corresponding count by one, and then runs the wake-up algorithm on that
intermediate state (the wake-up may grant queued waiters and increment
the counts again).  PROVED. -/
theorem c7_release_amended (s : RWLockCore) (me lock_type : Nat) :
    ((me, lock_type) ∉ s.owning → release me lock_type s = .error LockError.cannotRelease) ∧
    ((me, lock_type) ∈ s.owning → lock_type = RL ∨ lock_type = WL →
      ∃ s1, s1.owning = s.owning.erase (me, lock_type) ∧
        s1.owning.length + 1 = s.owning.length ∧
        s1.read_waiters = s.read_waiters ∧ s1.write_waiters = s.write_waiters ∧
        s1.r_state = s.r_state - (if lock_type = RL then 1 else 0) ∧
        s1.w_state = s.w_state - (if lock_type = WL then 1 else 0) ∧
        release me lock_type s = .ok (wake_up s1)) := by
  constructor
  · intro h
    simp [release, h]
  · intro hm hlt
    have hlen : (s.owning.erase (me, lock_type)).length + 1 = s.owning.length := by
      rw [List.length_erase_of_mem hm]
      have : 0 < s.owning.length := List.length_pos.mpr (by
        intro he
        rw [he] at hm
        cases hm)
      omega
    rcases hlt with hrl | hwl
    · subst hrl
      refine ⟨⟨s.read_waiters, s.write_waiters, s.r_state - 1, s.w_state,
        s.owning.erase (me, RL)⟩, rfl, hlen, rfl, rfl, by simp,
        by simp [(by decide : ¬(RL = WL))], ?_⟩
      simp [release, hm]
    · subst hwl
      have hne : ¬(WL = RL) := by decide
      refine ⟨⟨s.read_waiters, s.write_waiters, s.r_state, s.w_state - 1,
        s.owning.erase (me, WL)⟩, rfl, hlen, rfl, rfl, by simp [hne], by simp, ?_⟩
      simp [release, hm, hne]

/-- Witness for the amended C7 at the concrete state c7_sample: a
matching release removes the single entry and decrements _r_state, and a
release by a task with no entry fails with the unacquired-lock error. -/
theorem c7_release_amended_witness :
    (∃ s1, s1.owning = c7_sample.owning.erase (3, RL) ∧
      s1.owning.length + 1 = c7_sample.owning.length ∧
      s1.read_waiters = c7_sample.read_waiters ∧ s1.write_waiters = c7_sample.write_waiters ∧
      s1.r_state = c7_sample.r_state - (if RL = RL then 1 else 0) ∧
      s1.w_state = c7_sample.w_state - (if RL = WL then 1 else 0) ∧
      release 3 RL c7_sample = .ok (wake_up s1)) ∧
    release 4 RL c7_sample = .error LockError.cannotRelease :=
  ⟨(c7_release_amended c7_sample 3 RL).2 (by decide) (Or.inl rfl),
   (c7_release_amended c7_sample 4 RL).1 (by decide)⟩

/-- Claim C8 counterexample: as stated ("for every state in which task T
already holds a grant of mode m, ... a subsequent matching release
restores exactly the state before that acquire") the claim is false of
the code: at the reachable state c8_bad task 10 holds two read grants
while _r_state = 0; its reentrant acquire_read is granted, but the
matching release_read drops _r_state back to 0, which lets the wake-up
inside _release fulfil the pending read slot of task 14, ending at
_r_state = 1 with a changed reader queue instead of the prior state. -/
theorem c8_counterexample :
    Reachable c8_bad ∧ (10, RL) ∈ c8_bad.owning ∧
    acquire_read 10 104 c8_bad = .granted (grantRead 10 c8_bad) ∧
    release 10 RL (grantRead 10 c8_bad) = .ok c8_after ∧
    ¬c8_after.r_state = c8_bad.r_state ∧
    ¬c8_after.read_waiters = c8_bad.read_waiters :=
  ⟨runOps_reachable (show runOps c8_bad_ops initState = some c8_bad by decide),
   by decide, by decide, rfl, by decide, by decide⟩

/-- Claim C8 as amended: a task already holding a grant of a mode, with a
positive count for that mode (which holding a grant implies whenever the
counts are uncorrupted), acquires the same mode again immediately
without queueing, adding one hold and one ownership entry, and n such
reentrant acquires followed by n matching releases restore the original
counts, the original waiter queues and the original ownership multiset
(release removes the first matching entry of the list, so the list order
may differ).  PROVED. -/
theorem c8_reentrant_roundtrip (s : RWLockCore) (me : Nat) (n : Nat) :
    ((me, RL) ∈ s.owning → 0 < s.r_state →
      (∀ k fid, acquire_read me fid (grantReadN me k s) = .granted (grantReadN me (k + 1) s)) ∧
      ∃ t, releaseReadN me n (grantReadN me n s) = some t ∧
        t.read_waiters = s.read_waiters ∧ t.write_waiters = s.write_waiters ∧
        t.r_state = s.r_state ∧ t.w_state = s.w_state ∧ t.owning.Perm s.owning) ∧
    ((me, WL) ∈ s.owning → 0 < s.w_state →
      (∀ k fid, acquire_write me fid (grantWriteN me k s) = .granted (grantWriteN me (k + 1) s)) ∧
      ∃ t, releaseWriteN me n (grantWriteN me n s) = some t ∧
        t.read_waiters = s.read_waiters ∧ t.write_waiters = s.write_waiters ∧
        t.r_state = s.r_state ∧ t.w_state = s.w_state ∧ t.owning.Perm s.owning) := by
  constructor
  · intro hmem hpos
    constructor
    · intro k fid
      obtain ⟨_, _, _, _, h5⟩ := grantReadN_fields me k s
      have hmk : (me, RL) ∈ (grantReadN me k s).owning := by
        rw [← Multiset.mem_coe, h5]
        exact Multiset.mem_add.mpr (Or.inr (Multiset.mem_coe.mpr hmem))
      exact acquire_read_reentrant fid (Or.inl hmk)
    · obtain ⟨h1, h2, h3, h4, h5⟩ := grantReadN_fields me n s
      obtain ⟨t, ht, g1, g2, g3, g4, g5⟩ := releaseReadN_spec me n (grantReadN me n s)
        (s.owning : Multiset (Nat × Nat)) s.r_state h5 (Multiset.mem_coe.mpr hmem) h3 hpos
      exact ⟨t, ht, by rw [g1, h1], by rw [g2, h2], g3, by rw [g4, h4],
        Multiset.coe_eq_coe.mp g5⟩
  · intro hmem hpos
    constructor
    · intro k fid
      obtain ⟨_, _, _, _, h5⟩ := grantWriteN_fields me k s
      have hmk : (me, WL) ∈ (grantWriteN me k s).owning := by
        rw [← Multiset.mem_coe, h5]
        exact Multiset.mem_add.mpr (Or.inr (Multiset.mem_coe.mpr hmem))
      exact acquire_write_reentrant fid hmk
    · obtain ⟨h1, h2, h3, h4, h5⟩ := grantWriteN_fields me n s
      obtain ⟨t, ht, g1, g2, g3, g4, g5⟩ := releaseWriteN_spec me n (grantWriteN me n s)
        (s.owning : Multiset (Nat × Nat)) s.w_state h5 (Multiset.mem_coe.mpr hmem) h4 hpos
      exact ⟨t, ht, by rw [g1, h1], by rw [g2, h2], by rw [g3, h3], g4,
        Multiset.coe_eq_coe.mp g5⟩

/-- Witness for C8 at the concrete state c8_sample (task 5 holds one read
grant): a further acquire_read is granted at once and two reentrant
acquires followed by two releases restore the state up to ownership
order. -/
theorem c8_reentrant_roundtrip_witness :
    acquire_read 5 9 (grantReadN 5 0 c8_sample) = .granted (grantReadN 5 1 c8_sample) ∧
    ∃ t, releaseReadN 5 2 (grantReadN 5 2 c8_sample) = some t ∧
      t.read_waiters = c8_sample.read_waiters ∧ t.write_waiters = c8_sample.write_waiters ∧
      t.r_state = c8_sample.r_state ∧ t.w_state = c8_sample.w_state ∧
      t.owning.Perm c8_sample.owning :=
  ⟨((c8_reentrant_roundtrip c8_sample 5 2).1 (by decide) (by decide)).1 0 9,
   ((c8_reentrant_roundtrip c8_sample 5 2).1 (by decide) (by decide)).2⟩

/-- Claim C9: in non-fast mode, a cancellation delivered during the
fairness yield that follows an immediate (non-queued) grant rolls the
grant back before the CancelledError propagates: the handler removes one
matching ownership entry (restoring the ownership multiset), decrements
the hold count back to its pre-acquire value, and re-runs the wake-up
algorithm (_release runs it once and the handler once more).
CONFIRMED for both acquire_read and acquire_write. -/
theorem c9_yield_cancel_rollback (s s' : RWLockCore) (me fid : Nat) :
    (acquire_read me fid s = .granted s' →
      ∃ mid, mid.read_waiters = s.read_waiters ∧ mid.write_waiters = s.write_waiters ∧
        mid.r_state = s.r_state ∧ mid.w_state = s.w_state ∧ mid.owning.Perm s.owning ∧
        yield_after_acquire_cancelled me RL s' = .ok (wake_up (wake_up mid))) ∧
    (acquire_write me fid s = .granted s' →
      ∃ mid, mid.read_waiters = s.read_waiters ∧ mid.write_waiters = s.write_waiters ∧
        mid.r_state = s.r_state ∧ mid.w_state = s.w_state ∧ mid.owning.Perm s.owning ∧
        yield_after_acquire_cancelled me WL s' = .ok (wake_up (wake_up mid))) := by
  constructor
  · intro h
    have hs' := acquire_read_granted_inv h
    subst hs'
    have hm : (me, RL) ∈ (grantRead me s).owning := by simp [grantRead]
    refine ⟨⟨s.read_waiters, s.write_waiters, s.r_state + 1 - 1, s.w_state,
      (s.owning ++ [(me, RL)]).erase (me, RL)⟩, rfl, rfl, by simp, rfl,
      append_erase_perm s.owning (me, RL), ?_⟩
    simp [yield_after_acquire_cancelled, release, hm, grantRead]
  · intro h
    have hs' := acquire_write_granted_inv h
    subst hs'
    have hm : (me, WL) ∈ (grantWrite me s).owning := by simp [grantWrite]
    have hne : ¬(WL = RL) := by decide
    refine ⟨⟨s.read_waiters, s.write_waiters, s.r_state, s.w_state + 1 - 1,
      (s.owning ++ [(me, WL)]).erase (me, WL)⟩, rfl, rfl, rfl, by simp,
      append_erase_perm s.owning (me, WL), ?_⟩
    simp [yield_after_acquire_cancelled, release, hm, hne, grantWrite]

/-- Witness for C9: task 1 acquires read on the fresh lock and is
cancelled during the fairness yield; the rollback state has the original
empty ownership and zero counts. -/
theorem c9_yield_cancel_rollback_witness :
    ∃ mid, mid.read_waiters = initState.read_waiters ∧
      mid.write_waiters = initState.write_waiters ∧
      mid.r_state = initState.r_state ∧ mid.w_state = initState.w_state ∧
      mid.owning.Perm initState.owning ∧
      yield_after_acquire_cancelled 1 RL (grantRead 1 initState) =
        .ok (wake_up (wake_up mid)) :=
  (c9_yield_cancel_rollback initState (grantRead 1 initState) 1 0).1 (by decide)

/-- Claim C10: the synchronous with-statement entry of the reader and
writer facades raises RuntimeError for every state, before any
acquisition is attempted; only the asynchronous path acquires on entry
(here: an uncontended acquire) and releases on exit, and an
acquire-then-release round trip through the facades restores the state
exactly.  CONFIRMED. -/
theorem c10_sync_context_manager (s : RWLockCore) (me fid : Nat) :
    mixin_enter s = .error LockError.syncContextManager ∧
    ((me, RL) ∉ s.owning → (me, WL) ∉ s.owning → s.read_waiters = [] →
      s.write_waiters = [] → 0 ≤ s.r_state → s.w_state = 0 →
      reader_aenter me fid s = .granted (grantRead me s) ∧
      reader_aexit me (grantRead me s) = .ok s) ∧
    ((me, RL) ∉ s.owning → (me, WL) ∉ s.owning → s.read_waiters = [] →
      s.write_waiters = [] → s.r_state = 0 → s.w_state = 0 →
      writer_aenter me fid s = .granted (grantWrite me s) ∧
      writer_aexit me (grantWrite me s) = .ok s) := by
  refine ⟨rfl, ?_, ?_⟩
  · intro hR hW hrw hww hr hw
    constructor
    · show acquire_read me fid s = .granted (grantRead me s)
      unfold acquire_read
      rw [if_neg (by simp [hR, hW]), if_pos ⟨hww, hr, hw⟩]
    · show release me RL (grantRead me s) = .ok s
      obtain ⟨srw, sww, sr, sw, sown⟩ := s
      simp only at hR hW hrw hww hr hw
      subst hrw hww hw
      have hm : (me, RL) ∈ (grantRead me ⟨[], [], sr, 0, sown⟩).owning := by simp [grantRead]
      have her : (sown ++ [(me, RL)]).erase (me, RL) = sown := by
        rw [List.erase_append_right _ hR]
        simp
      have hwu := wake_up_no_waiters ⟨[], [], sr, 0, sown⟩ rfl rfl
      simp only [release, grantRead] at hm ⊢
      rw [if_pos hm]
      simp [her, hwu]
  · intro hR hW hrw hww hr hw
    constructor
    · show acquire_write me fid s = .granted (grantWrite me s)
      unfold acquire_write
      rw [if_neg hW, if_neg (by simp [hR]), if_pos ⟨hr, hw⟩]
    · show release me WL (grantWrite me s) = .ok s
      obtain ⟨srw, sww, sr, sw, sown⟩ := s
      simp only at hR hW hrw hww hr hw
      subst hrw hww hr hw
      have hm : (me, WL) ∈ (grantWrite me ⟨[], [], 0, 0, sown⟩).owning := by simp [grantWrite]
      have hne : ¬(WL = RL) := by decide
      have her : (sown ++ [(me, WL)]).erase (me, WL) = sown := by
        rw [List.erase_append_right _ hW]
        simp
      have hwu := wake_up_no_waiters ⟨[], [], 0, 0, sown⟩ rfl rfl
      simp only [release, grantWrite] at hm ⊢
      rw [if_pos hm]
      simp [her, hne, hwu]

/-- Witness for C10 at the fresh lock: the synchronous entry errors, the
asynchronous reader and writer paths grant and their exits restore the
initial state. -/
theorem c10_sync_context_manager_witness :
    mixin_enter initState = .error LockError.syncContextManager ∧
    (reader_aenter 1 0 initState = .granted (grantRead 1 initState) ∧
      reader_aexit 1 (grantRead 1 initState) = .ok initState) ∧
    (writer_aenter 1 0 initState = .granted (grantWrite 1 initState) ∧
      writer_aexit 1 (grantWrite 1 initState) = .ok initState) :=
  ⟨(c10_sync_context_manager initState 1 0).1,
   (c10_sync_context_manager initState 1 0).2.1 (by decide) (by decide) rfl rfl
     (by decide) rfl,
   (c10_sync_context_manager initState 1 0).2.2 (by decide) (by decide) rfl rfl
     rfl rfl⟩

end Aiorwlock
